import Mathlib

/-!
Verification development for two TensorFlow 2.5.0 fragments:
tensorflow/core/graph/mkl_graph_util.h (MKL graph-rewrite helpers) and
tensorflow/stream_executor/cuda/cublasLt_stub.cc (cuBLASLt dynamic-loading stub).

The C++ helpers are embedded shallowly.  External framework services
(the kernel registry queried through KernelsRegisteredForOp, the CPU feature
probe, the TF_ENABLE_MKL_NATIVE_FORMAT environment setting, the dynamic
loader) are modelled as explicit parameters gathered in environment
structures, mirroring exactly how the C++ code consumes them.
-/

/-- `std::string::find(pat) != std::string::npos` on character lists:
true iff `pat` occurs as a contiguous substring. -/
def listContainsSub (pat : List Char) : List Char → Bool
  | [] => pat.isPrefixOf ([] : List Char)
  | c :: rest => pat.isPrefixOf (c :: rest) || listContainsSub pat rest

/-- `s.find(pat) != std::string::npos` for C++ strings. -/
def strFindSub (s pat : String) : Bool :=
  listContainsSub pat.data s.data

/-- The TensorFlow DataType enum (tensorflow/core/framework/types.pb.h),
restricted to the constructors the excerpt mentions plus representatives of
the remaining types (any type not special-cased by the code behaves like
DT_INT32 here). -/
inductive DataType where
  | DT_INVALID
  | DT_FLOAT
  | DT_DOUBLE
  | DT_INT32
  | DT_UINT8
  | DT_STRING
  | DT_COMPLEX64
  | DT_COMPLEX128
  | DT_BOOL
  | DT_QINT8
  | DT_QUINT8
  | DT_QINT32
  | DT_BFLOAT16
  | DT_HALF
  deriving DecidableEq, Repr

open DataType

/-- Modelled from the spec: `DataType_Name` is generated proto code (not under
the excerpt); it returns the enum constant's name, e.g. "DT_FLOAT", as shown by
the kernel-registration strings quoted in mkl_graph_util.h. -/
def DataType_Name : DataType → String
  | DT_INVALID => "DT_INVALID"
  | DT_FLOAT => "DT_FLOAT"
  | DT_DOUBLE => "DT_DOUBLE"
  | DT_INT32 => "DT_INT32"
  | DT_UINT8 => "DT_UINT8"
  | DT_STRING => "DT_STRING"
  | DT_COMPLEX64 => "DT_COMPLEX64"
  | DT_COMPLEX128 => "DT_COMPLEX128"
  | DT_BOOL => "DT_BOOL"
  | DT_QINT8 => "DT_QINT8"
  | DT_QUINT8 => "DT_QUINT8"
  | DT_QINT32 => "DT_QINT32"
  | DT_BFLOAT16 => "DT_BFLOAT16"
  | DT_HALF => "DT_HALF"

/-- External framework state the mkl_graph_util.h helpers consult:
the kernel registry, the CPU feature probe, and the resolved native-format
mode (TF_ENABLE_MKL_NATIVE_FORMAT, default true). -/
structure MklEnv where
  kernelsRegisteredForOp : String → String
  cpuHasAvx512f : Bool
  tfEnableMklNativeFormat : Bool

/-- MklTfTensorOrdering enum of mkl_graph_util.h. -/
inductive MklTfTensorOrdering where
  | TENSORS_INTERLEAVED
  | TENSORS_CONTIGUOUS
  deriving DecidableEq, Repr

/-- `static const MklTfTensorOrdering kTensorOrdering = TENSORS_CONTIGUOUS;` -/
def kTensorOrdering : MklTfTensorOrdering := .TENSORS_CONTIGUOUS

/-- `DataIndexToMetaDataIndex(int n, int total_tensors)`.  C++ `int` division
truncates toward zero, which is `Int.tdiv`. -/
def DataIndexToMetaDataIndex (n total_tensors : Int) : Int :=
  if kTensorOrdering = MklTfTensorOrdering.TENSORS_INTERLEAVED then
    n + 1
  else
    n + Int.tdiv total_tensors 2

/-- `GetTensorDataIndex(int n, int total_tensors)`. -/
def GetTensorDataIndex (n _total_tensors : Int) : Int :=
  if kTensorOrdering = MklTfTensorOrdering.TENSORS_INTERLEAVED then
    2 * n
  else
    n

/-- `GetTensorMetaDataIndex(int n, int total_tensors)`. -/
def GetTensorMetaDataIndex (n total_tensors : Int) : Int :=
  DataIndexToMetaDataIndex (GetTensorDataIndex n total_tensors) total_tensors

/-- `NativeFormatEnabled()`: with ENABLE_MKL undefined it is constantly true;
with ENABLE_MKL it is the once-cached TF_ENABLE_MKL_NATIVE_FORMAT value,
which `MklEnv` carries already resolved. -/
def NativeFormatEnabled (env : MklEnv) : Bool :=
  env.tfEnableMklNativeFormat

def kMklLayoutDependentOpLabelPattern : String := "label=\x27MklLayoutDependentOp\x27"

def kMklNameChangeOpLabelPattern : String := "label=\x27MklNameChangeOp\x27"

def kMklQuantizedOpLabelPattern : String := "label=\x27QuantizedMklOp\x27"

/-- `kMklOpPrefix = "_Mkl"`. -/
def kMklOpPrefixStr : String := "_Mkl"

/-- `kMklEagerOpPrefix = "_MklEager"`. -/
def kMklEagerOpPrefixStr : String := "_MklEager"

/-- `kMklNativeOpPrefix = "_MklNative"`. -/
def kMklNativeOpPrefixStr : String := "_MklNative"

/-- `GetMklNativeOpName(const string& name)`. -/
def GetMklNativeOpName (name : String) : String :=
  let result :=
    (name == "ConjugateTranspose" ||
     name == "BatchMatMul" || name == "BatchMatMulV2" ||
     name == "MatMul" || name == "Transpose")
  if result then
    kMklOpPrefixStr ++ name
  else
    kMklNativeOpPrefixStr ++ name

/-- `GetMklOpName(const string& name)`. -/
def GetMklOpName (env : MklEnv) (name : String) : String :=
  if !NativeFormatEnabled env then
    kMklOpPrefixStr ++ name
  else
    GetMklNativeOpName name

/-- `GetMklEagerOpName(const string& name)`. -/
def GetMklEagerOpName (name : String) : String :=
  kMklEagerOpPrefixStr ++ name

/-- `IsBF16SupportedByOneDNNOnThisCPU()`: probes `port::TestCPUFeature(AVX512F)`. -/
def IsBF16SupportedByOneDNNOnThisCPU (env : MklEnv) : Bool :=
  env.cpuHasAvx512f

/-- `IsMklLayoutDependentOp(const string& op_name, DataType T)`.
The BF16UnsupportedWarning call on the unsupported-BF16 path is a pure log
side effect (modelled separately for the once-only claim) and does not change
the returned value. -/
def IsMklLayoutDependentOp (env : MklEnv) (op_name : String) (T : DataType) : Bool :=
  let kernel := env.kernelsRegisteredForOp op_name
  if strFindSub kernel kMklQuantizedOpLabelPattern then
    (T == DT_QUINT8 || T == DT_QINT8 || T == DT_QINT32)
  else if strFindSub kernel kMklLayoutDependentOpLabelPattern then
    if T == DT_FLOAT then true
    else if T == DT_BFLOAT16 then
      if IsBF16SupportedByOneDNNOnThisCPU env then true else false
    else false
  else false

/-- The two-datatype overload
`IsMklLayoutDependentOp(const string& op_name, DataType Tinput, DataType Tfilter)`. -/
def IsMklLayoutDependentOp2 (env : MklEnv) (op_name : String)
    (_Tinput Tfilter : DataType) : Bool :=
  let kernel := env.kernelsRegisteredForOp op_name
  if strFindSub kernel kMklQuantizedOpLabelPattern then
    Tfilter == DT_QINT8
  else false

/-- `IsMklNameChangeOp(const string& op_name, DataType T)`. -/
def IsMklNameChangeOp (env : MklEnv) (op_name : String) (T : DataType) : Bool :=
  let kernel := env.kernelsRegisteredForOp op_name
  let search_string :=
    kMklNameChangeOpLabelPattern ++ ";" ++ " T in [" ++ DataType_Name T ++ "]"
  if strFindSub kernel search_string then
    let isTypeAllowed :=
      (T == DT_COMPLEX128 || T == DT_COMPLEX64 || T == DT_DOUBLE || T == DT_FLOAT)
    let isTypeAllowed :=
      if !isTypeAllowed && T == DT_BFLOAT16 then
        IsBF16SupportedByOneDNNOnThisCPU env
      else isTypeAllowed
    isTypeAllowed
  else false

/-- `IsMklOp(const string& op_name, DataType T)`. -/
def IsMklOp (env : MklEnv) (op_name : String) (T : DataType) : Bool :=
  IsMklLayoutDependentOp env op_name T || IsMklNameChangeOp env op_name T

/-- A graph node as the node-level IsMklOp overload sees it: its
`type_string()` and the attribute map of its NodeDef, with only type-valued
attributes relevant here (`GetNodeAttr(ndef, "T", &T)` succeeds exactly when
the map has an entry for the name). -/
structure NodeModel where
  typeString : String
  attrs : String → Option DataType

/-- The node overload `IsMklOp(const Node* n)`: `GetNodeAttr(n->def(), "T", &T).ok()
&& IsMklOp(n->type_string(), T)` with C++ short-circuit evaluation. -/
def IsMklOpNode (env : MklEnv) (n : NodeModel) : Bool :=
  match n.attrs "T" with
  | none => false
  | some T => IsMklOp env n.typeString T

/-- `IsMklElementWiseOp(const string& op_name, DataType T)`. -/
def IsMklElementWiseOp (env : MklEnv) (op_name : String) (T : DataType) : Bool :=
  if !IsMklOp env op_name T then
    false
  else
    (op_name == GetMklOpName env "Add" ||
     op_name == GetMklOpName env "AddV2" ||
     op_name == GetMklOpName env "Sub" ||
     op_name == GetMklOpName env "Mul" ||
     op_name == GetMklOpName env "Maximum" ||
     op_name == GetMklOpName env "SquaredDifference")

/-! ## cublasLt_stub.cc -/

/-- External dynamic-loading state the stub consults: the outcome of
`DsoLoader::GetCublasLtDsoHandle()` (an ok handle or an error status) and the
outcome of `Env::GetSymbolFromLibrary(handle, name, &symbol)` (the resolved
address, or an error status when the symbol is absent).  Handles and symbol
addresses are abstracted as natural numbers. -/
structure DsoWorld where
  getCublasLtDsoHandle : Except String Nat
  getSymbolFromLibrary : Nat → String → Except String Nat

/-- `GetDsoHandle()` (non-PLATFORM_GOOGLE branch): returns the DSO handle, or
a null pointer (`none`) when loading fails; the result is cached by the
C++ static-local initializer, modelled separately for the once-only claim. -/
def GetDsoHandle (w : DsoWorld) : Option Nat :=
  match w.getCublasLtDsoHandle with
  | .error _ => none
  | .ok h => some h

/-- `LoadSymbol<T>(const char* symbol_name)`: `symbol` starts null; only when
the DSO handle is non-null is `GetSymbolFromLibrary` consulted, and its error
status is dropped with `.IgnoreError()`, leaving `symbol` null.  `none` is the
null function pointer. -/
def LoadSymbol (w : DsoWorld) (symbol_name : String) : Option Nat :=
  match GetDsoHandle w with
  | none => none
  | some handle =>
    match w.getSymbolFromLibrary handle symbol_name with
    | .error _ => none
    | .ok addr => some addr

/-- `GetSymbolNotFoundError()` returns `CUBLAS_STATUS_INTERNAL_ERROR`. -/
def GetSymbolNotFoundError : String := "CUBLAS_STATUS_INTERNAL_ERROR"

/-! ## One-time-initialization guard

C++ function-local `static` initializers and `absl::call_once` run their
computation the first time control passes through and replay the cached value
afterwards.  The guard is modelled as an explicit cell holding
`Option α`; `callOnce` reports whether the underlying computation (the side
effect) was actually invoked, and `runCalls` executes a sequence of `n` calls
counting invocations. -/

/-- One guarded call: on a fresh cell run `compute` and cache; on a filled
cell return the cached value.  The `Bool` records whether `compute` ran. -/
def callOnce {α : Type} (compute : Unit → α) (cell : Option α) :
    α × Option α × Bool :=
  match cell with
  | some v => (v, some v, false)
  | none =>
    let v := compute ()
    (v, some v, true)

/-- `n` successive guarded calls: the list of returned values, the final cell,
and how many times `compute` actually ran. -/
def runCalls {α : Type} (compute : Unit → α) : Nat → Option α → List α × Option α × Nat
  | 0, cell => ([], cell, 0)
  | n + 1, cell =>
    let r := callOnce compute cell
    let rest := runCalls compute n r.2.1
    (r.1 :: rest.1, rest.2.1, (if r.2.2 then 1 else 0) + rest.2.2)

/-- The effectful computation guarded by `GetDsoHandle`'s static local:
one call into `DsoLoader::GetCublasLtDsoHandle()`. -/
def dsoHandleCompute (w : DsoWorld) : Unit → Option Nat :=
  fun _ => match w.getCublasLtDsoHandle with
           | .error _ => none
           | .ok h => some h

/-- The effectful computation guarded by `absl::call_once` in
`NativeFormatEnabled()`: one `ReadBoolFromEnvVar("TF_ENABLE_MKL_NATIVE_FORMAT",
true, ...)`, where `envVar` is the parsed environment value if the variable is
set and parses. -/
def nativeFormatCompute (envVar : Option Bool) : Unit → Bool :=
  fun _ => envVar.getD true

/-- The effectful computation guarded by `absl::call_once` in
`BF16UnsupportedWarning()`: emitting one LOG(ERROR) line, modelled as the
warning text it would append to the log. -/
def bf16WarningCompute : Unit → String :=
  fun _ => "oneDNN BFloat16 support are only on platforms with AVX512. Falling back to default implementation if present."

/-- Modelled from the spec: the per-symbol caching of `LoadSymbol` results
lives in the generated wrapper file cublasLt_11_0.inc, which is #included by
cublasLt_stub.cc but absent from the excerpt; per the spec, symbol resolution
happens at most once per process lifetime via a one-time-initialization
guard, i.e. each wrapper holds `static auto func_ptr = LoadSymbol<...>(name)`. -/
def loadSymbolCompute (w : DsoWorld) (symbol_name : String) : Unit → Option Nat :=
  fun _ => LoadSymbol w symbol_name

/-! ## Helper lemmas -/

theorem runCalls_cached {α : Type} (compute : Unit → α) (v : α) :
    ∀ n, runCalls compute n (some v) = (List.replicate n v, some v, 0)
  | 0 => rfl
  | n + 1 => by
    simp [runCalls, callOnce, runCalls_cached compute v n, List.replicate]

theorem runCalls_fresh {α : Type} (compute : Unit → α) (n : Nat) :
    runCalls compute (n + 1) none =
      (List.replicate (n + 1) (compute ()), some (compute ()), 1) := by
  simp [runCalls, callOnce, runCalls_cached, List.replicate]

/-! ## Claims -/

/-- C1: for every op name and DataType T, IsMklOp(op_name, T) is true iff the
op is registered as an MKL layout-dependent op for T or as an MKL name-change
op for T. -/
theorem IsMklOp_decision (env : MklEnv) (op_name : String) (T : DataType) :
    IsMklOp env op_name T = true ↔
      IsMklLayoutDependentOp env op_name T = true ∨
      IsMklNameChangeOp env op_name T = true := by
  simp [IsMklOp]

/-- C2: under the compiled-in contiguous ordering, GetTensorMetaDataIndex(n,
total_tensors) = n + total_tensors / 2 with C-style (truncating) integer
division: the metadata tensor sits total_tensors/2 positions after the data
tensor. -/
theorem GetTensorMetaDataIndex_contiguous_offset :
    kTensorOrdering = MklTfTensorOrdering.TENSORS_CONTIGUOUS ∧
    ∀ n total_tensors : Int,
      GetTensorMetaDataIndex n total_tensors = n + Int.tdiv total_tensors 2 := by
  exact ⟨rfl, fun n total_tensors => rfl⟩

/-- C3: each one-time-initialization guard (the static local of GetDsoHandle,
the absl::call_once of NativeFormatEnabled and of the BF16 warning path, and
the per-symbol static wrapper around LoadSymbol) performs its underlying
resolution / environment-read / logging side effect exactly once across any
n+1 repeated calls, and every call returns the value computed by the first. -/
theorem once_guarded_resolution_at_most_once (w : DsoWorld) (envVar : Option Bool)
    (symbol_name : String) (n : Nat) :
    runCalls (dsoHandleCompute w) (n + 1) none =
      (List.replicate (n + 1) (GetDsoHandle w), some (GetDsoHandle w), 1) ∧
    runCalls (nativeFormatCompute envVar) (n + 1) none =
      (List.replicate (n + 1) (envVar.getD true), some (envVar.getD true), 1) ∧
    runCalls bf16WarningCompute (n + 1) none =
      (List.replicate (n + 1) (bf16WarningCompute ()),
        some (bf16WarningCompute ()), 1) ∧
    runCalls (loadSymbolCompute w symbol_name) (n + 1) none =
      (List.replicate (n + 1) (LoadSymbol w symbol_name),
        some (LoadSymbol w symbol_name), 1) := by
  refine ⟨?_, ?_, ?_, ?_⟩
  · exact runCalls_fresh (dsoHandleCompute w) n
  · exact runCalls_fresh (nativeFormatCompute envVar) n
  · exact runCalls_fresh bf16WarningCompute n
  · exact runCalls_fresh (loadSymbolCompute w symbol_name) n

/-- C4: LoadSymbol forwards by runtime symbol resolution: when the DSO loads
and the symbol resolves, it returns the resolved pointer; when the DSO fails
to load, or the symbol is absent, it returns the null pointer, the error
status being ignored rather than raised. -/
theorem LoadSymbol_forwarding (w : DsoWorld) (s : String) :
    (∀ h p, w.getCublasLtDsoHandle = Except.ok h →
      w.getSymbolFromLibrary h s = Except.ok p → LoadSymbol w s = some p) ∧
    (∀ e, w.getCublasLtDsoHandle = Except.error e → LoadSymbol w s = none) ∧
    (∀ h e, w.getCublasLtDsoHandle = Except.ok h →
      w.getSymbolFromLibrary h s = Except.error e → LoadSymbol w s = none) := by
  refine ⟨?_, ?_, ?_⟩
  · intro h p hdso hsym
    simp [LoadSymbol, GetDsoHandle, hdso, hsym]
  · intro e hdso
    simp [LoadSymbol, GetDsoHandle, hdso]
  · intro h e hdso hsym
    simp [LoadSymbol, GetDsoHandle, hdso, hsym]

/-- A loader world where the DSO loads as handle 5 and only "cublasLtCreate"
resolves (to address 7). -/
def dsoWorldOk : DsoWorld where
  getCublasLtDsoHandle := Except.ok 5
  getSymbolFromLibrary := fun h name =>
    if h == 5 && name == "cublasLtCreate" then Except.ok 7
    else Except.error "symbol not found"

/-- A loader world where the DSO fails to load. -/
def dsoWorldFail : DsoWorld where
  getCublasLtDsoHandle := Except.error "dlopen failed"
  getSymbolFromLibrary := fun _ _ => Except.error "symbol not found"

theorem LoadSymbol_forwarding_witness :
    LoadSymbol dsoWorldOk "cublasLtCreate" = some 7 ∧
    LoadSymbol dsoWorldFail "cublasLtCreate" = none ∧
    LoadSymbol dsoWorldOk "cublasLtDestroy" = none :=
  ⟨(LoadSymbol_forwarding dsoWorldOk "cublasLtCreate").1 5 7 rfl rfl,
   (LoadSymbol_forwarding dsoWorldFail "cublasLtCreate").2.1 "dlopen failed" rfl,
   (LoadSymbol_forwarding dsoWorldOk "cublasLtDestroy").2.2 5 "symbol not found"
     rfl rfl⟩

/-- C5: the node-level IsMklOp returns false (rather than failing) on a node
without a readable "T" attribute, and otherwise agrees with
IsMklOp(type_string, T). -/
theorem IsMklOpNode_missing_T_attr (env : MklEnv) (n : NodeModel) :
    (n.attrs "T" = none → IsMklOpNode env n = false) ∧
    (∀ T, n.attrs "T" = some T →
      IsMklOpNode env n = IsMklOp env n.typeString T) := by
  constructor
  · intro h
    simp [IsMklOpNode, h]
  · intro T h
    simp [IsMklOpNode, h]

/-- An environment whose registry registers nothing. -/
def emptyMklEnv : MklEnv where
  kernelsRegisteredForOp := fun _ => ""
  cpuHasAvx512f := false
  tfEnableMklNativeFormat := true

/-- A Conv2D node carrying no "T" attribute. -/
def nodeNoT : NodeModel where
  typeString := "Conv2D"
  attrs := fun _ => none

/-- A Conv2D node whose "T" attribute reads DT_FLOAT. -/
def nodeWithT : NodeModel where
  typeString := "Conv2D"
  attrs := fun a => if a == "T" then some DT_FLOAT else none

theorem IsMklOpNode_missing_T_attr_witness :
    IsMklOpNode emptyMklEnv nodeNoT = false ∧
    IsMklOpNode emptyMklEnv nodeWithT = IsMklOp emptyMklEnv "Conv2D" DT_FLOAT :=
  ⟨(IsMklOpNode_missing_T_attr emptyMklEnv nodeNoT).1 rfl,
   (IsMklOpNode_missing_T_attr emptyMklEnv nodeWithT).2 DT_FLOAT rfl⟩

/-- C6: GetMklOpName prefixes "_Mkl" when native format mode is disabled;
with native format mode enabled it prefixes "_Mkl" exactly for
ConjugateTranspose, BatchMatMul, BatchMatMulV2, MatMul and Transpose, and
"_MklNative" for every other op name. -/
theorem GetMklOpName_naming (env : MklEnv) (name : String) :
    GetMklOpName env name =
      if NativeFormatEnabled env = false then "_Mkl" ++ name
      else if name = "ConjugateTranspose" ∨ name = "BatchMatMul" ∨
              name = "BatchMatMulV2" ∨ name = "MatMul" ∨ name = "Transpose"
      then "_Mkl" ++ name
      else "_MklNative" ++ name := by
  cases h : env.tfEnableMklNativeFormat <;>
    simp [GetMklOpName, NativeFormatEnabled, GetMklNativeOpName,
      kMklOpPrefixStr, kMklNativeOpPrefixStr, h, or_assoc]

/-- C7: the two-datatype IsMklLayoutDependentOp overload never depends on
Tinput, and is true exactly when the op's registered kernels carry the
quantized-op label and Tfilter is DT_QINT8. -/
theorem IsMklLayoutDependentOp2_Tinput_independent (env : MklEnv)
    (op_name : String) (Tfilter Tinput1 Tinput2 : DataType) :
    IsMklLayoutDependentOp2 env op_name Tinput1 Tfilter =
      IsMklLayoutDependentOp2 env op_name Tinput2 Tfilter ∧
    (IsMklLayoutDependentOp2 env op_name Tinput1 Tfilter = true ↔
      strFindSub (env.kernelsRegisteredForOp op_name)
          kMklQuantizedOpLabelPattern = true ∧
        Tfilter = DT_QINT8) := by
  refine ⟨rfl, ?_⟩
  by_cases h : strFindSub (env.kernelsRegisteredForOp op_name)
      kMklQuantizedOpLabelPattern = true <;>
    simp [IsMklLayoutDependentOp2, h]

/-- C8: whenever IsMklElementWiseOp(op_name, T) is true, IsMklOp(op_name, T)
is true and op_name is GetMklOpName(x) for some x among Add, AddV2, Sub, Mul,
Maximum, SquaredDifference; for op names outside that image the result is
false. -/
theorem IsMklElementWiseOp_characterization (env : MklEnv) (op_name : String)
    (T : DataType) :
    (IsMklElementWiseOp env op_name T = true →
      IsMklOp env op_name T = true ∧
      ∃ x ∈ ["Add", "AddV2", "Sub", "Mul", "Maximum", "SquaredDifference"],
        op_name = GetMklOpName env x) ∧
    ((∀ x ∈ ["Add", "AddV2", "Sub", "Mul", "Maximum", "SquaredDifference"],
        op_name ≠ GetMklOpName env x) →
      IsMklElementWiseOp env op_name T = false) := by
  constructor
  · intro h
    by_cases hm : IsMklOp env op_name T = true
    · refine ⟨hm, ?_⟩
      simp [IsMklElementWiseOp, hm, or_assoc] at h
      rcases h with h | h | h | h | h | h
      · exact ⟨"Add", by simp, h⟩
      · exact ⟨"AddV2", by simp, h⟩
      · exact ⟨"Sub", by simp, h⟩
      · exact ⟨"Mul", by simp, h⟩
      · exact ⟨"Maximum", by simp, h⟩
      · exact ⟨"SquaredDifference", by simp, h⟩
    · rw [Bool.not_eq_true] at hm
      simp [IsMklElementWiseOp, hm] at h
  · intro hall
    by_cases hm : IsMklOp env op_name T = true
    · simp [IsMklElementWiseOp, hm, and_assoc]
      exact ⟨hall "Add" (by simp), hall "AddV2" (by simp), hall "Sub" (by simp),
        hall "Mul" (by simp), hall "Maximum" (by simp),
        hall "SquaredDifference" (by simp)⟩
    · rw [Bool.not_eq_true] at hm
      simp [IsMklElementWiseOp, hm]

/-- An environment whose registry answers every op query with a single
MklNameChangeOp kernel line for DT_FLOAT, on a non-AVX512 CPU, with native
format mode disabled. -/
def nameChangeMklEnv : MklEnv where
  kernelsRegisteredForOp := fun _ => "label=\x27MklNameChangeOp\x27; T in [DT_FLOAT]"
  cpuHasAvx512f := false
  tfEnableMklNativeFormat := false

theorem IsMklElementWiseOp_characterization_witness :
    (IsMklOp nameChangeMklEnv "_MklAdd" DT_FLOAT = true ∧
      ∃ x ∈ ["Add", "AddV2", "Sub", "Mul", "Maximum", "SquaredDifference"],
        "_MklAdd" = GetMklOpName nameChangeMklEnv x) ∧
    IsMklElementWiseOp nameChangeMklEnv "Relu" DT_FLOAT = false :=
  ⟨(IsMklElementWiseOp_characterization nameChangeMklEnv "_MklAdd" DT_FLOAT).1
      (by decide),
   (IsMklElementWiseOp_characterization nameChangeMklEnv "Relu" DT_FLOAT).2
      (by decide)⟩
